import Mathlib

/-!
Verification of the game-session client in `src/App.tsx`
(`PokemonGuessingGame` component).

The component keeps four pieces of React state: `gameData`, `loading`,
`error`, `lastClickedSpecies`.  Its three core functions are
`startNewGame`, `excludeSpecies` and `getSpeciesBorderColor`.  We embed
each of them shallowly: the React state becomes a record `ClientState`,
a network round trip becomes an explicit `FetchResult` argument, and
each async handler becomes two pure functions, one giving the state at
the moment the request is issued (the suspension point, right before
`fetch`) and one giving the state after the handler has fully completed
(including the `finally` block).  Whether and with which payload a
request is issued is itself made explicit by a `... Request` function.
-/

namespace RRAssistant

/-- `state: 'AVAILABLE' | 'EXCLUDED'` on the `Species` interface. -/
inductive SpeciesState where
  | available
  | excluded
deriving DecidableEq, Repr

/-- The `Species` interface from `App.tsx`. -/
structure Species where
  name : String
  imageUrl : Option String
  id : Int
  form : Option String
  state : SpeciesState
deriving DecidableEq, Repr

/-- `gameState: 'IN_PROGRESS' | 'COMPLETED' | 'FAILED'` on `GameData`. -/
inductive GamePhase where
  | inProgress
  | completed
  | failed
deriving DecidableEq, Repr

/-- The `GameData` interface from `App.tsx`. -/
structure GameData where
  id : Int
  species : List Species
  gameState : GamePhase
  hint : String
  explanation : String
  expectedExclusions : Int
  validGuess : Bool
deriving DecidableEq, Repr

/-- The `ExcludeRequest` interface from `App.tsx`. -/
structure ExcludeRequest where
  gameId : Int
  speciesId : Int
  form : Option String
deriving DecidableEq, Repr

/-- The four `useState` cells of the component:
`gameData`, `loading`, `error`, `lastClickedSpecies`. -/
structure ClientState where
  gameData : Option GameData
  loading : Bool
  error : Option String
  lastClickedSpecies : Option (Int × Option String)
deriving DecidableEq, Repr

/-- The initial state of the component: all four `useState` initial values. -/
def initialState : ClientState :=
  { gameData := none, loading := false, error := none, lastClickedSpecies := none }

/-- Outcome of one `fetch` round trip, as observed by the `try/catch`
blocks in `App.tsx`:
* `netFail` — the `fetch` promise rejects with a `TypeError` whose
  message includes `Failed to fetch` (network-level failure, the case
  the catch blocks single out);
* `resp status body` — an HTTP response arrived with the given status;
  `body` is the result of `response.json()`: either the parsed
  `GameData` or the message of the parse error it threw.  The code only
  reads the body on the `response.ok` path. -/
inductive FetchResult where
  | netFail
  | resp (status : Nat) (body : Except String GameData)
deriving Repr

/-- `response.ok`: status in the 2xx range. -/
def responseOk (status : Nat) : Bool :=
  200 ≤ status && status ≤ 299

/-- A request issued to the server: either `POST /game/new` (no body)
or `POST /game/exclude` with an `ExcludeRequest` body. -/
inductive Request where
  | newGame
  | exclude (r : ExcludeRequest)
deriving DecidableEq, Repr

/-- Message set by `startNewGame` when the caught error is a
`TypeError` including `Failed to fetch`. -/
def corsStartMsg : String :=
  "CORS Error: Unable to connect to backend. Please check your backend CORS configuration or use a proxy."

/-- Message set by `excludeSpecies` when the caught error is a
`TypeError` including `Failed to fetch`. -/
def corsExcludeMsg : String :=
  "CORS Error: Unable to connect to backend. Please check your backend CORS configuration."

/-- Message of the error thrown on a non-2xx response:
`HTTP error! status: N`. -/
def httpErrorMsg (status : Nat) : String :=
  "HTTP error! status: " ++ toString status

/-- The request `startNewGame` issues.  The function body has no
conditional before the `fetch` call: it always issues `POST /game/new`. -/
def startNewGameRequest (_s : ClientState) : Option Request :=
  some .newGame

/-- State of the component at the suspension point of `startNewGame`,
right before its `fetch`: `setLoading(true)`, `setError(null)`,
`setLastClickedSpecies(null)` have run. -/
def startNewGamePre (s : ClientState) : ClientState :=
  { s with loading := true, error := none, lastClickedSpecies := none }

/-- Final state after `startNewGame` completes, given the outcome of its
`fetch`.  The `finally` block sets `loading` back to `false`; the catch
block distinguishes the `Failed to fetch` `TypeError` from every other
thrown `Error` by message text. -/
def startNewGame (s : ClientState) (f : FetchResult) : ClientState :=
  let pre := startNewGamePre s
  match f with
  | .netFail =>
      { pre with loading := false, error := some corsStartMsg }
  | .resp status body =>
      if responseOk status then
        match body with
        | .ok data => { pre with loading := false, gameData := some data }
        | .error msg => { pre with loading := false, error := some msg }
      else
        { pre with loading := false, error := some (httpErrorMsg status) }

/-- The guard at the top of `excludeSpecies`:
`if (!gameData || species.state !== 'AVAILABLE' || gameData.gameState !== 'IN_PROGRESS') return;`.
`true` means the guard passes and the function proceeds. -/
def excludeGuard (s : ClientState) (sp : Species) : Bool :=
  match s.gameData with
  | none => false
  | some gd => sp.state == .available && gd.gameState == .inProgress

/-- The request `excludeSpecies` issues: none when the guard rejects,
otherwise `POST /game/exclude` with `{gameId, speciesId, form}`. -/
def excludeSpeciesRequest (s : ClientState) (sp : Species) : Option Request :=
  match s.gameData with
  | none => none
  | some gd =>
      if sp.state == .available && gd.gameState == .inProgress then
        some (.exclude { gameId := gd.id, speciesId := sp.id, form := sp.form })
      else
        none

/-- State at the suspension point of `excludeSpecies`, right before its
`fetch` (only reached when the guard passes): `setLoading(true)`,
`setError(null)`, `setLastClickedSpecies({id, form})` have run.  When
the guard rejects, the function returns at once and the state is
untouched. -/
def excludeSpeciesPre (s : ClientState) (sp : Species) : ClientState :=
  if excludeGuard s sp then
    { s with loading := true, error := none,
             lastClickedSpecies := some (sp.id, sp.form) }
  else
    s

/-- Final state after `excludeSpecies` completes.  When the guard
rejects, the state is returned unchanged and `f` is irrelevant (no
request was made).  Otherwise the `try/catch/finally` mirrors
`startNewGame`, with the exclude-specific CORS message. -/
def excludeSpecies (s : ClientState) (sp : Species) (f : FetchResult) : ClientState :=
  if excludeGuard s sp then
    let pre := excludeSpeciesPre s sp
    match f with
    | .netFail =>
        { pre with loading := false, error := some corsExcludeMsg }
    | .resp status body =>
        if responseOk status then
          match body with
          | .ok data => { pre with loading := false, gameData := some data }
          | .error msg => { pre with loading := false, error := some msg }
        else
          { pre with loading := false, error := some (httpErrorMsg status) }
  else
    s

/-- Border colors returned by `getSpeciesBorderColor`. -/
def redLost : String := "#e74c3c"

def greenCorrect : String := "#27ae60"

def orangeWrong : String := "#f39c12"

def grayExcluded : String := "#95a5a6"

def blueAvailable : String := "#3498db"

/-- The fall-through default of `getSpeciesBorderColor`: gray for an
excluded species, blue otherwise. -/
def defaultBorderColor (sp : Species) : String :=
  if sp.state == .excluded then grayExcluded else blueAvailable

/-- `getSpeciesBorderColor` from `App.tsx`: reads `gameData` and
`lastClickedSpecies` from the component state and classifies one
species.  The clicked-species branch requires both to be non-null and
both `id` and `form` to match. -/
def getSpeciesBorderColor (s : ClientState) (sp : Species) : String :=
  match s.gameData, s.lastClickedSpecies with
  | some gd, some lc =>
      if sp.id == lc.1 && sp.form == lc.2 then
        if gd.gameState == .failed then redLost
        else if gd.validGuess then greenCorrect
        else orangeWrong
      else
        defaultBorderColor sp
  | _, _ => defaultBorderColor sp

/-- A `FetchResult` the catch blocks treat as a failure: network-level
failure, a non-2xx status, or a 2xx response whose body failed to
parse. -/
def isFetchFailure (f : FetchResult) : Bool :=
  match f with
  | .netFail => true
  | .resp status body =>
      !responseOk status ||
        (match body with | .ok _ => false | .error _ => true)

/-!
Concrete fixtures, mirroring the response shapes of §6 of the design
document and the scenarios of §8.
-/

/-- An available candidate with no form. -/
def spA : Species :=
  { name := "bulbasaur", imageUrl := none, id := 10, form := none,
    state := .available }

/-- A second available candidate. -/
def spB : Species :=
  { name := "ivysaur", imageUrl := none, id := 11, form := none,
    state := .available }

/-- The first candidate, already excluded. -/
def spAX : Species := { spA with state := .excluded }

/-- A candidate with the same base id as `spA` but a different form. -/
def spAForm : Species := { spA with form := some "alola" }

/-- An in-progress game snapshot. -/
def gdInProgress : GameData :=
  { id := 1, species := [spA, spB], gameState := .inProgress, hint := "h",
    explanation := "", expectedExclusions := 1, validGuess := false }

/-- The same snapshot after the game was completed. -/
def gdCompleted : GameData := { gdInProgress with gameState := .completed }

/-- The same snapshot after the game was failed. -/
def gdFailed : GameData := { gdInProgress with gameState := .failed }

/-- Client state holding an in-progress game, idle. -/
def stInProgress : ClientState :=
  { gameData := some gdInProgress, loading := false, error := none,
    lastClickedSpecies := none }

/-- Client state holding a completed game, idle. -/
def stCompleted : ClientState :=
  { gameData := some gdCompleted, loading := false, error := none,
    lastClickedSpecies := none }

/-!  Shared helper lemmas. -/

/-- `excludeSpecies` issues no request exactly when its guard rejects. -/
theorem excludeRequest_none_iff (s : ClientState) (sp : Species) :
    excludeSpeciesRequest s sp = none ↔ excludeGuard s sp = false := by
  unfold excludeSpeciesRequest excludeGuard
  cases s.gameData with
  | none => simp
  | some gd => split <;> simp_all

/-- Any nonempty-literal-headed character list keeps its head under
append; specialized to the HTTP error message header. -/
theorem httpHeader_head (l : List Char) :
    ("HTTP error! status: ".data ++ l).head? = some 'H' := by
  have h : "HTTP error! status: ".data = 'H' :: "TTP error! status: ".data := rfl
  rw [h]
  rfl

/-- The connection-failure message of `startNewGame` differs from every
HTTP-status error message. -/
theorem corsStartMsg_ne_httpErrorMsg (status : Nat) :
    corsStartMsg ≠ httpErrorMsg status := by
  intro h
  have h2 : corsStartMsg.data.head? = (httpErrorMsg status).data.head? := by rw [h]
  rw [show (httpErrorMsg status).data =
        "HTTP error! status: ".data ++ (toString status).data from
      String.data_append _ _, httpHeader_head] at h2
  exact absurd h2 (by decide)

/-- The connection-failure message of `excludeSpecies` differs from
every HTTP-status error message. -/
theorem corsExcludeMsg_ne_httpErrorMsg (status : Nat) :
    corsExcludeMsg ≠ httpErrorMsg status := by
  intro h
  have h2 : corsExcludeMsg.data.head? = (httpErrorMsg status).data.head? := by rw [h]
  rw [show (httpErrorMsg status).data =
        "HTTP error! status: ".data ++ (toString status).data from
      String.data_append _ _, httpHeader_head] at h2
  exact absurd h2 (by decide)

/-!  Claim C1. -/

/-- Claim C1 as stated is false on the code: in a state whose loading
flag is set, `excludeSpecies` on an available candidate of an
in-progress game still issues its network request, and `startNewGame`
also issues one; neither call is rejected with a Busy failure. -/
theorem c1_counterexample :
    ({ stInProgress with loading := true } : ClientState).loading = true ∧
      excludeSpeciesRequest { stInProgress with loading := true } spA ≠ none ∧
      startNewGameRequest { stInProgress with loading := true } ≠ none := by
  refine ⟨rfl, ?_, ?_⟩ <;> decide

/-- Claim C1 amended: the Busy/loading flag is never consulted by the
action functions.  While it is set, `startNewGame` still issues its
request, `excludeSpecies` issues exactly the request it would issue
with the flag clear, and whenever the (loading-blind) legality guard
passes a request is in fact issued. -/
theorem c1_busy_never_checked (s : ClientState) (sp : Species)
    (_h : s.loading = true) :
    startNewGameRequest s = some Request.newGame ∧
      excludeSpeciesRequest s sp =
        excludeSpeciesRequest { s with loading := false } sp ∧
      (excludeGuard s sp = true → excludeSpeciesRequest s sp ≠ none) := by
  refine ⟨rfl, rfl, fun hg => ?_⟩
  intro hnone
  rw [excludeRequest_none_iff] at hnone
  rw [hg] at hnone
  exact absurd hnone (by decide)

/-- Witness instantiating `c1_busy_never_checked` at a concrete busy
state and candidate. -/
theorem c1_busy_never_checked_witness :
    startNewGameRequest { stInProgress with loading := true } = some Request.newGame ∧
      excludeSpeciesRequest { stInProgress with loading := true } spA =
        excludeSpeciesRequest
          { { stInProgress with loading := true } with loading := false } spA ∧
      (excludeGuard { stInProgress with loading := true } spA = true →
        excludeSpeciesRequest { stInProgress with loading := true } spA ≠ none) :=
  c1_busy_never_checked { stInProgress with loading := true } spA rfl

/-!  Claim C2. -/

/-- Claim C2 as stated is false on the code: starting from a state that
holds an active session, a failed `startNewGame` leaves that session
snapshot in place rather than reverting to no-session. -/
theorem c2_counterexample :
    (startNewGame stInProgress FetchResult.netFail).gameData = some gdInProgress ∧
      (startNewGame stInProgress FetchResult.netFail).gameData ≠ none := by
  refine ⟨?_, ?_⟩ <;> decide

/-- Claim C2 amended: when the transport call of `startNewGame` fails,
the session snapshot is left exactly as it was before the call (a
no-session state stays no-session, an active session is retained), and
the failure is surfaced as a non-null error. -/
theorem c2_start_failure_keeps_snapshot (s : ClientState) (f : FetchResult)
    (h : isFetchFailure f = true) :
    (startNewGame s f).gameData = s.gameData ∧
      (startNewGame s f).error ≠ none := by
  cases f with
  | netFail => exact ⟨rfl, by simp [startNewGame, startNewGamePre]⟩
  | resp status body =>
    unfold isFetchFailure at h
    unfold startNewGame startNewGamePre
    cases hok : responseOk status with
    | false => simp [hok]
    | true =>
      cases body with
      | ok d => simp [hok] at h
      | error m => simp [hok]

/-- Witness instantiating `c2_start_failure_keeps_snapshot` at a
network failure from the initial state. -/
theorem c2_start_failure_keeps_snapshot_witness :
    (startNewGame initialState FetchResult.netFail).gameData =
        initialState.gameData ∧
      (startNewGame initialState FetchResult.netFail).error ≠ none :=
  c2_start_failure_keeps_snapshot initialState FetchResult.netFail rfl

/-!  Claim C3. -/

/-- Claim C3 as stated is false on the code: an `excludeSpecies` call
on a completed game, and one on an already-excluded candidate, are both
rejected before any network call, but no InvalidState failure of any
kind is surfaced — the state is returned untouched with a null error,
and the two rejection cases are observably identical silent returns. -/
theorem c3_counterexample :
    excludeSpeciesRequest stCompleted spA = none ∧
      excludeSpecies stCompleted spA FetchResult.netFail = stCompleted ∧
      (excludeSpecies stCompleted spA FetchResult.netFail).error = none ∧
      excludeSpeciesRequest stInProgress spAX = none ∧
      excludeSpecies stInProgress spAX FetchResult.netFail = stInProgress ∧
      (excludeSpecies stInProgress spAX FetchResult.netFail).error = none := by
  refine ⟨?_, ?_, ?_, ?_, ?_, ?_⟩ <;> decide

/-- Claim C3 amended: a call to `excludeSpecies` when the game phase is
not in-progress, or on a candidate whose status is Excluded, is
rejected before any network call — no request is issued — but silently:
the entire state, including the surfaced error, is returned unchanged,
and no InvalidState failure (of either kind) is produced. -/
theorem c3_illegal_exclude_rejected_silently (s : ClientState)
    (gd : GameData) (sp : Species) (f : FetchResult)
    (hgd : s.gameData = some gd)
    (h : gd.gameState ≠ GamePhase.inProgress ∨ sp.state = SpeciesState.excluded) :
    excludeSpeciesRequest s sp = none ∧ excludeSpecies s sp f = s := by
  have hguard : excludeGuard s sp = false := by
    unfold excludeGuard
    rw [hgd]
    rcases h with h | h
    · cases hgs : gd.gameState <;> simp_all
    · simp [h]
  refine ⟨(excludeRequest_none_iff s sp).mpr hguard, ?_⟩
  unfold excludeSpecies
  simp [hguard]

/-- Witness instantiating `c3_illegal_exclude_rejected_silently` on a
completed game. -/
theorem c3_illegal_exclude_rejected_silently_witness :
    excludeSpeciesRequest stCompleted spB = none ∧
      excludeSpecies stCompleted spB FetchResult.netFail = stCompleted :=
  c3_illegal_exclude_rejected_silently stCompleted gdCompleted spB
    FetchResult.netFail rfl (Or.inl (by decide))

/-!  Claim C4. -/

/-- Claim C4: when a legal `excludeSpecies` call sees its transport
fail (network failure, non-2xx status, or malformed body), the session
snapshot is exactly the one from before the call, the failure is
surfaced as a non-null error, and the recorded pending action still
names the clicked candidate. -/
theorem c4_exclude_failure_preserves_state (s : ClientState) (sp : Species)
    (f : FetchResult) (hg : excludeGuard s sp = true)
    (hf : isFetchFailure f = true) :
    (excludeSpecies s sp f).gameData = s.gameData ∧
      (excludeSpecies s sp f).error ≠ none ∧
      (excludeSpecies s sp f).lastClickedSpecies = some (sp.id, sp.form) := by
  unfold excludeSpecies excludeSpeciesPre
  cases f with
  | netFail => simp [hg]
  | resp status body =>
    unfold isFetchFailure at hf
    cases hok : responseOk status with
    | false => simp [hg, hok]
    | true =>
      cases body with
      | ok d => simp [hok] at hf
      | error m => simp [hg, hok]

/-- Witness instantiating `c4_exclude_failure_preserves_state` at a
network failure on a legal exclusion. -/
theorem c4_exclude_failure_preserves_state_witness :
    (excludeSpecies stInProgress spA FetchResult.netFail).gameData =
        stInProgress.gameData ∧
      (excludeSpecies stInProgress spA FetchResult.netFail).error ≠ none ∧
      (excludeSpecies stInProgress spA FetchResult.netFail).lastClickedSpecies =
        some (spA.id, spA.form) :=
  c4_exclude_failure_preserves_state stInProgress spA FetchResult.netFail
    (by decide) rfl

/-!  Claim C5. -/

/-- Claim C5: for the candidate matching the pending action, a failed
phase always classifies it red (Lost) regardless of `validGuess`; when
the phase is not failed, `validGuess = true` classifies it green
(Correct) and `validGuess = false` amber (IncorrectButContinuing). -/
theorem c5_pending_feedback_classification (s : ClientState)
    (gd : GameData) (lc : Int × Option String) (sp : Species)
    (hgd : s.gameData = some gd) (hlc : s.lastClickedSpecies = some lc)
    (hid : sp.id = lc.1) (hform : sp.form = lc.2) :
    (gd.gameState = GamePhase.failed →
        getSpeciesBorderColor s sp = redLost) ∧
      (gd.gameState ≠ GamePhase.failed → gd.validGuess = true →
        getSpeciesBorderColor s sp = greenCorrect) ∧
      (gd.gameState ≠ GamePhase.failed → gd.validGuess = false →
        getSpeciesBorderColor s sp = orangeWrong) := by
  obtain ⟨sgd, sl, se, slc⟩ := s
  simp only at hgd hlc
  subst hgd hlc
  unfold getSpeciesBorderColor
  refine ⟨fun hgs => ?_, fun hgs hv => ?_, fun hgs hv => ?_⟩ <;>
    cases hgs2 : gd.gameState <;> simp_all [hid, hform]

/-- Witness instantiating `c5_pending_feedback_classification` at a
failed game with an invalid last guess (Scenario D shape). -/
theorem c5_pending_feedback_classification_witness :
    (gdFailed.gameState = GamePhase.failed →
        getSpeciesBorderColor
          { gameData := some gdFailed, loading := false, error := none,
            lastClickedSpecies := some (10, none) } spA = redLost) ∧
      (gdFailed.gameState ≠ GamePhase.failed → gdFailed.validGuess = true →
        getSpeciesBorderColor
          { gameData := some gdFailed, loading := false, error := none,
            lastClickedSpecies := some (10, none) } spA = greenCorrect) ∧
      (gdFailed.gameState ≠ GamePhase.failed → gdFailed.validGuess = false →
        getSpeciesBorderColor
          { gameData := some gdFailed, loading := false, error := none,
            lastClickedSpecies := some (10, none) } spA = orangeWrong) :=
  c5_pending_feedback_classification _ gdFailed (10, none) spA rfl rfl
    (by decide) (by decide)

/-!  Claim C6. -/

/-- Claim C6: pending-action feedback needs both `id` and `form` to
match; a candidate differing in either component — in particular one
with the same id but a different form — is classified purely from its
own status: gray when excluded, blue when available. -/
theorem c6_feedback_requires_compound_key (s : ClientState)
    (lc : Int × Option String) (sp : Species)
    (hlc : s.lastClickedSpecies = some lc)
    (h : sp.id ≠ lc.1 ∨ sp.form ≠ lc.2) :
    (sp.state = SpeciesState.excluded →
        getSpeciesBorderColor s sp = grayExcluded) ∧
      (sp.state = SpeciesState.available →
        getSpeciesBorderColor s sp = blueAvailable) := by
  obtain ⟨sgd, sl, se, slc⟩ := s
  simp only at hlc
  subst hlc
  unfold getSpeciesBorderColor defaultBorderColor
  cases sgd with
  | none => refine ⟨fun hs => ?_, fun hs => ?_⟩ <;> simp [hs]
  | some gd =>
    have hkey : (sp.id == lc.1 && sp.form == lc.2) = false := by
      rcases h with h | h <;> simp [h]
    refine ⟨fun hs => ?_, fun hs => ?_⟩ <;> simp [hkey, hs]

/-- Witness instantiating `c6_feedback_requires_compound_key` on a
candidate sharing the pending id but carrying a different form. -/
theorem c6_feedback_requires_compound_key_witness :
    (spAForm.state = SpeciesState.excluded →
        getSpeciesBorderColor
          { gameData := some gdInProgress, loading := false, error := none,
            lastClickedSpecies := some (10, none) } spAForm = grayExcluded) ∧
      (spAForm.state = SpeciesState.available →
        getSpeciesBorderColor
          { gameData := some gdInProgress, loading := false, error := none,
            lastClickedSpecies := some (10, none) } spAForm = blueAvailable) :=
  c6_feedback_requires_compound_key _ (10, none) spAForm rfl
    (Or.inr (by decide))

/-!  Claim C7. -/

/-- Claim C7: for both operations, a non-2xx response surfaces the
status-carrying HTTP error message, and the whole resulting state is
independent of the response body (the body is never parsed on that
path); a network-level failure surfaces the connection-failure message
instead, which differs from every HTTP-status message, so the two
error cases are distinguishable. -/
theorem c7_transport_failure_taxonomy (s : ClientState) (sp : Species)
    (status : Nat) (body altBody : Except String GameData)
    (hstatus : responseOk status = false) :
    (startNewGame s (FetchResult.resp status body)).error =
        some (httpErrorMsg status) ∧
      startNewGame s (FetchResult.resp status body) =
        startNewGame s (FetchResult.resp status altBody) ∧
      (startNewGame s FetchResult.netFail).error = some corsStartMsg ∧
      (excludeGuard s sp = true →
        (excludeSpecies s sp (FetchResult.resp status body)).error =
            some (httpErrorMsg status) ∧
          excludeSpecies s sp (FetchResult.resp status body) =
            excludeSpecies s sp (FetchResult.resp status altBody) ∧
          (excludeSpecies s sp FetchResult.netFail).error =
            some corsExcludeMsg) ∧
      corsStartMsg ≠ httpErrorMsg status ∧
      corsExcludeMsg ≠ httpErrorMsg status := by
  refine ⟨?_, ?_, ?_, fun hg => ⟨?_, ?_, ?_⟩, corsStartMsg_ne_httpErrorMsg status,
    corsExcludeMsg_ne_httpErrorMsg status⟩
  · simp [startNewGame, startNewGamePre, hstatus]
  · simp [startNewGame, startNewGamePre, hstatus]
  · simp [startNewGame, startNewGamePre]
  · simp [excludeSpecies, excludeSpeciesPre, hstatus, hg]
  · simp [excludeSpecies, excludeSpeciesPre, hstatus, hg]
  · simp [excludeSpecies, excludeSpeciesPre, hg]

/-- Witness instantiating `c7_transport_failure_taxonomy` at status 500
with a parseable and a malformed alternative body. -/
theorem c7_transport_failure_taxonomy_witness :
    (startNewGame stInProgress (FetchResult.resp 500 (Except.ok gdCompleted))).error =
        some (httpErrorMsg 500) ∧
      startNewGame stInProgress (FetchResult.resp 500 (Except.ok gdCompleted)) =
        startNewGame stInProgress (FetchResult.resp 500 (Except.error "bad json")) ∧
      (startNewGame stInProgress FetchResult.netFail).error = some corsStartMsg ∧
      (excludeGuard stInProgress spA = true →
        (excludeSpecies stInProgress spA
              (FetchResult.resp 500 (Except.ok gdCompleted))).error =
            some (httpErrorMsg 500) ∧
          excludeSpecies stInProgress spA
              (FetchResult.resp 500 (Except.ok gdCompleted)) =
            excludeSpecies stInProgress spA
              (FetchResult.resp 500 (Except.error "bad json")) ∧
          (excludeSpecies stInProgress spA FetchResult.netFail).error =
            some corsExcludeMsg) ∧
      corsStartMsg ≠ httpErrorMsg 500 ∧
      corsExcludeMsg ≠ httpErrorMsg 500 :=
  c7_transport_failure_taxonomy stInProgress spA 500 (Except.ok gdCompleted)
    (Except.error "bad json") rfl

/-!  Claim C8. -/

/-- Claim C8: the feedback resolver is a pure function of the session
snapshot and the pending action: two states agreeing on those two
inputs classify every candidate identically, and recomputing the
classification on the same state yields the same color. -/
theorem c8_resolver_pure (s1 s2 : ClientState) (sp : Species)
    (hgd : s1.gameData = s2.gameData)
    (hlc : s1.lastClickedSpecies = s2.lastClickedSpecies) :
    getSpeciesBorderColor s1 sp = getSpeciesBorderColor s2 sp ∧
      getSpeciesBorderColor s1 sp = getSpeciesBorderColor s1 sp := by
  refine ⟨?_, rfl⟩
  unfold getSpeciesBorderColor
  rw [hgd, hlc]

/-- Witness instantiating `c8_resolver_pure` on two states differing
only in the loading flag. -/
theorem c8_resolver_pure_witness :
    getSpeciesBorderColor stInProgress spA =
        getSpeciesBorderColor { stInProgress with loading := true } spA ∧
      getSpeciesBorderColor stInProgress spA =
        getSpeciesBorderColor stInProgress spA :=
  c8_resolver_pure stInProgress { stInProgress with loading := true } spA rfl rfl

/-!  Claim C9. -/

/-- Claim C9: an `excludeSpecies` call rejected by the legality guard
leaves the whole client state untouched — session snapshot, loading
flag, surfaced error and recorded pending action all keep their prior
values — and issues no request, so no error indication of any kind is
produced. -/
theorem c9_guard_rejection_is_frame (s : ClientState) (sp : Species)
    (f : FetchResult) (h : excludeGuard s sp = false) :
    excludeSpecies s sp f = s ∧
      (excludeSpecies s sp f).gameData = s.gameData ∧
      (excludeSpecies s sp f).loading = s.loading ∧
      (excludeSpecies s sp f).error = s.error ∧
      (excludeSpecies s sp f).lastClickedSpecies = s.lastClickedSpecies ∧
      excludeSpeciesRequest s sp = none := by
  have h1 : excludeSpecies s sp f = s := by
    unfold excludeSpecies
    simp [h]
  exact ⟨h1, by rw [h1], by rw [h1], by rw [h1], by rw [h1],
    (excludeRequest_none_iff s sp).mpr h⟩

/-- Witness instantiating `c9_guard_rejection_is_frame` at a state with
a stale error message and no session. -/
theorem c9_guard_rejection_is_frame_witness :
    excludeSpecies { initialState with error := some "old" } spA
          FetchResult.netFail =
        { initialState with error := some "old" } ∧
      (excludeSpecies { initialState with error := some "old" } spA
            FetchResult.netFail).gameData =
        ({ initialState with error := some "old" } : ClientState).gameData ∧
      (excludeSpecies { initialState with error := some "old" } spA
            FetchResult.netFail).loading =
        ({ initialState with error := some "old" } : ClientState).loading ∧
      (excludeSpecies { initialState with error := some "old" } spA
            FetchResult.netFail).error =
        ({ initialState with error := some "old" } : ClientState).error ∧
      (excludeSpecies { initialState with error := some "old" } spA
            FetchResult.netFail).lastClickedSpecies =
        ({ initialState with error := some "old" } : ClientState).lastClickedSpecies ∧
      excludeSpeciesRequest { initialState with error := some "old" } spA = none :=
  c9_guard_rejection_is_frame { initialState with error := some "old" } spA
    FetchResult.netFail rfl

/-!  Claim C10. -/

/-- Claim C10: every `startNewGame` call, and every `excludeSpecies`
call that passes its guard, has a null surfaced error at its suspension
point — the moment the network request is issued — so an earlier
failure message never survives the start of a new action. -/
theorem c10_error_cleared_before_request (s : ClientState) (sp : Species) :
    (startNewGamePre s).error = none ∧
      (excludeGuard s sp = true → (excludeSpeciesPre s sp).error = none) := by
  refine ⟨rfl, fun h => ?_⟩
  unfold excludeSpeciesPre
  simp [h]

/-- Witness instantiating `c10_error_cleared_before_request` at a state
carrying a stale error from an earlier failed action. -/
theorem c10_error_cleared_before_request_witness :
    (startNewGamePre { stInProgress with error := some "stale" }).error = none ∧
      (excludeGuard { stInProgress with error := some "stale" } spA = true →
        (excludeSpeciesPre { stInProgress with error := some "stale" } spA).error =
          none) :=
  c10_error_cleared_before_request { stInProgress with error := some "stale" } spA

end RRAssistant
